import Mathlib

/-!
Verification of the happy-manager pattern naming and sequencing engine.

The embedding translates `src/patterns.py`, the numbering block of
`src/main.py` and `src/utils/hashes.py`.  A directory is modelled as the
list of stems of its files of the configured extension (the `*.dst` glob);
a file whose content matters only through its fingerprint is modelled as a
name paired with that fingerprint.  Python `int`/`str` values become
`Int`/`String`, raised exceptions become `Except` errors.
-/

deriving instance DecidableEq for Except

namespace HappyManager

/-- The Python exception kinds raised or caught by the sequencing code. -/
inductive PyError where
  | valueError : String → PyError
  | indexError : PyError
deriving DecidableEq

/-- Python `str.isdigit` on a list of code points: true iff the string is
nonempty and all characters are digits (the archive names are ASCII). -/
def pyIsdigitL (cs : List Char) : Bool := !cs.isEmpty && cs.all Char.isDigit

/-- Python `str.isdigit` on a string. -/
def pyIsdigit (s : String) : Bool := pyIsdigitL s.data

/-- Numeric value of a digit string, most significant digit first. -/
def natOfDigits (cs : List Char) : Nat :=
  cs.foldl (fun acc c => 10 * acc + (c.toNat - 48)) 0

/-- Python `int(s)` on a list of code points: an optional sign followed by
a nonempty run of digits parses, anything else raises `ValueError`
(modelled as `none`). -/
def pyIntL : List Char → Option Int
  | [] => none
  | c :: rest =>
    if c = '-' then
      if pyIsdigitL rest then some (-(natOfDigits rest : Int)) else none
    else if c = '+' then
      if pyIsdigitL rest then some ((natOfDigits rest : Int)) else none
    else if pyIsdigitL (c :: rest) then some ((natOfDigits (c :: rest) : Int)) else none

/-- Python `int(s)` on the strings that occur as path stems.  Surrounding
whitespace, which `int` would also strip, cannot occur in a path stem. -/
def pyInt (s : String) : Option Int := pyIntL s.data

/-- Python slice `stem[:3]`. -/
def takeStem (s : String) : String := ⟨s.data.take 3⟩

/-- Python slice `stem[3:]`. -/
def dropStem (s : String) : String := ⟨s.data.drop 3⟩

/-- The error message of `Pattern.valid_numbers` for an out-of-range number. -/
def numberRangeMsg : String := "`self.number` must be an integer between `1` and `999`"

/-- The error message of `Pattern.valid_numbers` for an out-of-range year. -/
def yearRangeMsg : String := "`self.year` must be an integer between the present year and `1997`"

/-- The message of the `ValueError` raised by a failing `int(...)` call. -/
def invalidIntMsg : String := "invalid literal for int with base 10"

/-- The message of the `ValueError` raised by `sort_key`. -/
def keyMsg : String := "`key` must be either year or number."

/-- `utils.files.FileData`: the metadata extracted from a candidate file. -/
structure FileData where
  file_name : String
  size_kb : Int
  hash : String
  year_modified : Int
deriving DecidableEq

/-- The `Pattern` dataclass of `src/patterns.py`.  The opaque
`embroidery` payload only feeds the out-of-scope image export and is
omitted; `name` keeps its `"?"` default. -/
structure Pattern where
  original_name : String
  number : Int
  year : Int
  size_kb : Int
  hash : String
  flash_drive : String
  name : String := "?"
deriving DecidableEq

/-- `Pattern.valid_numbers`: raises `ValueError` when `number` is outside
`range(1, 1000)` or `year` is above the current year or below 1997,
otherwise returns `True`.  (`isinstance(self.number, int)` always holds in
the typed embedding.) -/
def valid_numbers (p : Pattern) (yearToday : Int) : Except PyError Bool :=
  if p.number < 1 ∨ 999 < p.number then .error (.valueError numberRangeMsg)
  else if yearToday < p.year ∨ p.year < 1997 then .error (.valueError yearRangeMsg)
  else .ok true

/-- Python `str.zfill`: pad with leading zeros to the requested width,
keeping a leading sign in front of the padding. -/
def zfill (s : String) (width : Nat) : String :=
  if width ≤ s.data.length then s
  else
    let pad := List.replicate (width - s.data.length) '0'
    match s.data with
    | c :: rest => if c = '-' ∨ c = '+' then ⟨c :: (pad ++ rest)⟩ else ⟨pad ++ (c :: rest)⟩
    | [] => ⟨pad⟩

/-- `Pattern.name_from_numbers`: `str(self.number).zfill(3) + str(self.year)`. -/
def name_from_numbers (p : Pattern) : String :=
  zfill (toString p.number) 3 ++ toString p.year

/-- `Pattern.bump_pattern_number`: `self.number += 1` followed by
`self.name = self.name_from_numbers()`. -/
def bump_pattern_number (p : Pattern) : Pattern :=
  let q : Pattern := { p with number := p.number + 1 }
  { q with name := name_from_numbers q }

/-- The `Literal["year", "number"]` sorting key. -/
inductive SortKey where
  | year : SortKey
  | number : SortKey
deriving DecidableEq

/-- `patterns.sort_key`: parse `stem[:3]` and `stem[3:]` with `int`; on a
parse failure both values become `None`; a falsy (zero or missing) value
makes the final branch raise `ValueError`. -/
def sort_key (s : String) (key : SortKey) : Except PyError (Int × Int) :=
  match pyInt (takeStem s), pyInt (dropStem s) with
  | some n, some y =>
    if y ≠ 0 ∧ n ≠ 0 then
      match key with
      | .year => .ok (y, n)
      | .number => .ok (n, y)
    else .error (.valueError keyMsg)
  | _, _ => .error (.valueError keyMsg)

/-- The filter of `patterns.sort_files`:
`file.stem[:3].isdigit() and file.stem[3:].isdigit()`. -/
def conforms (s : String) : Bool := pyIsdigit (takeStem s) && pyIsdigit (dropStem s)

/-- Evaluate an effectful function over a list left to right, stopping at
the first raised exception — the way Python materialises the key array of
`sorted` or a list comprehension. -/
def mapExcept {ε α β : Type} : List α → (α → Except ε β) → Except ε (List β)
  | [], _ => .ok []
  | x :: xs, f =>
    match f x with
    | .error e => .error e
    | .ok y =>
      match mapExcept xs f with
      | .error e => .error e
      | .ok ys => .ok (y :: ys)

/-- A list-comprehension filter whose predicate may raise. -/
def filterExcept {ε α : Type} : List α → (α → Except ε Bool) → Except ε (List α)
  | [], _ => .ok []
  | x :: xs, f =>
    match f x with
    | .error e => .error e
    | .ok b =>
      match filterExcept xs f with
      | .error e => .error e
      | .ok ys => .ok (if b then x :: ys else ys)

/-- Lexicographic order on the `(primary, secondary)` tuples produced by
`sort_key`, the order Python `sorted` applies to tuple keys. -/
def lexLe (a b : Int × Int) : Prop := a.1 < b.1 ∨ (a.1 = b.1 ∧ a.2 ≤ b.2)

instance : DecidableRel lexLe := fun x y => inferInstanceAs (Decidable (x.1 < y.1 ∨ (x.1 = y.1 ∧ x.2 ≤ y.2)))

/-- Ascending comparison of keyed entries (`reverse=False`). -/
def pairAsc (p q : String × Int × Int) : Prop := lexLe p.2 q.2

/-- Descending comparison of keyed entries: Python `sorted(reverse=True)`
is a stable descending sort, i.e. a stable sort by the flipped order. -/
def pairDesc (p q : String × Int × Int) : Prop := lexLe q.2 p.2

instance : DecidableRel pairAsc := fun p q => inferInstanceAs (Decidable (lexLe p.2 q.2))

instance : DecidableRel pairDesc := fun p q => inferInstanceAs (Decidable (lexLe q.2 p.2))

instance : IsTotal (Int × Int) lexLe :=
  ⟨fun a b => by unfold lexLe; omega⟩

instance : IsTrans (Int × Int) lexLe :=
  ⟨fun a b c hab hbc => by unfold lexLe at *; omega⟩

instance : IsTotal (String × Int × Int) pairAsc :=
  ⟨fun p q => IsTotal.total (r := lexLe) p.2 q.2⟩

instance : IsTrans (String × Int × Int) pairAsc :=
  ⟨fun p q r hpq hqr => IsTrans.trans (r := lexLe) p.2 q.2 r.2 hpq hqr⟩

instance : IsTotal (String × Int × Int) pairDesc :=
  ⟨fun p q => IsTotal.total (r := lexLe) q.2 p.2⟩

instance : IsTrans (String × Int × Int) pairDesc :=
  ⟨fun p q r hpq hqr => IsTrans.trans (r := lexLe) r.2 q.2 p.2 hqr hpq⟩

/-- `patterns.sort_files`: keep the stems whose 3-character prefix and
remainder are both purely numeric, materialise the `sort_key` of each kept
entry (any `ValueError` propagates), then stable-sort by the key tuples in
the requested direction. -/
def sort_files (files : List String) (key : SortKey) (rev : Bool) :
    Except PyError (List String) :=
  match mapExcept (files.filter conforms) (fun s => (sort_key s key).map (fun t => (s, t))) with
  | .error e => .error e
  | .ok pairs =>
    .ok ((if rev then List.insertionSort pairDesc pairs
          else List.insertionSort pairAsc pairs).map Prod.fst)

/-- `patterns.latest_pattern`: optionally filter the listing by
`int(file.stem[3:]) == year` (a truthy `year` only; the `int` call can
raise), sort by year descending and take element 0, whose absence is an
`IndexError`. -/
def latest_pattern (dir : List String) (year : Option Int) : Except PyError String :=
  let step : Except PyError (List String) :=
    match year with
    | some y =>
      if y ≠ 0 then
        filterExcept dir (fun s =>
          match pyInt (dropStem s) with
          | some v => .ok (v == y)
          | none => .error (.valueError invalidIntMsg))
      else .ok dir
    | none => .ok dir
  match step with
  | .error e => .error e
  | .ok fl =>
    match sort_files fl .year true with
    | .error e => .error e
    | .ok [] => .error .indexError
    | .ok (f :: _) => .ok f

/-- `patterns.list_present_years`: `years.add(int(file.stem[3:]))` over the
listing; the first stem whose remainder is not numeric raises `ValueError`. -/
def list_present_years : List String → Except PyError (Finset Int)
  | [] => .ok ∅
  | s :: rest =>
    match pyInt (dropStem s) with
    | none => .error (.valueError invalidIntMsg)
    | some y =>
      match list_present_years rest with
      | .error e => .error e
      | .ok ys => .ok (insert y ys)

/-- `Pattern.from_file`: take the number of the latest pattern of the
file's modification year (catching only `IndexError` as "start at 1"),
validate, set the name, and bump unless the number is exactly 1. -/
def from_file (data : FileData) (backupDir : List String) (flashDriveName : String)
    (yearToday : Int) : Except PyError Pattern :=
  let numberRes : Except PyError Int :=
    match latest_pattern backupDir (some data.year_modified) with
    | .ok latest =>
      match pyInt (takeStem latest) with
      | some n => .ok n
      | none => .error (.valueError invalidIntMsg)
    | .error .indexError => .ok 1
    | .error e => .error e
  match numberRes with
  | .error e => .error e
  | .ok number =>
    let p : Pattern :=
      { original_name := data.file_name, number := number, year := data.year_modified,
        size_kb := data.size_kb, hash := data.hash, flash_drive := flashDriveName }
    match valid_numbers p yearToday with
    | .error e => .error e
    | .ok _ =>
      let q : Pattern := { p with name := name_from_numbers p }
      if q.number = 1 then .ok q else .ok (bump_pattern_number q)

/-- The numbering block of `src/main.py` (lines 51-60): reset the count to
0 and bump when the year is absent from the archive, otherwise take the
latest number of that year and bump. -/
def main_assign_number (p : Pattern) (backupDir : List String) : Except PyError Pattern :=
  match list_present_years backupDir with
  | .error e => .error e
  | .ok years =>
    if p.year ∉ years then
      .ok (bump_pattern_number { p with number := 0 })
    else
      match latest_pattern backupDir (some p.year) with
      | .error e => .error e
      | .ok latest =>
        match pyInt (takeStem latest) with
        | some n => .ok (bump_pattern_number { p with number := n })
        | none => .error (.valueError invalidIntMsg)

/-- The header row written by `Pattern.to_csv_log` on first creation. -/
def csvHeaders : List String := ["name", "original_name", "size_kb", "hash", "flash_drive"]

/-- The data row written by `Pattern.to_csv_log` for one ingestion. -/
def csvRow (p : Pattern) : List String :=
  [p.name, p.original_name, toString p.size_kb, p.hash, p.flash_drive]

/-- `Pattern.to_csv_log`: the log file is `none` when absent, otherwise its
rows; `writable` models whether opening and writing succeeds (an `OSError`
returns `False` and leaves the log as it was).  A fresh file gets the
header row and one data row, an existing file gets one appended data row. -/
def to_csv_log (p : Pattern) (log : Option (List (List String))) (writable : Bool) :
    Option (List (List String)) × Bool :=
  if !writable then (log, false)
  else
    match log with
    | some rows => (some (rows ++ [csvRow p]), true)
    | none => (some [csvHeaders, csvRow p], true)

/-- A file that matters only through its name and content fingerprint. -/
structure HFile where
  name : String
  hash : String
deriving DecidableEq

/-- `utils.hashes.is_present`: hash every archived file of the extension,
then for each candidate whose hash occurs among those values record
`(candidate name, candidate hash, all archived names with that hash)`;
return `False` (here `none`) when nothing matched. -/
def is_present (args : List HFile) (targetDir : List HFile) :
    Option (List (String × String × List String)) :=
  let hashes := targetDir.map (fun f => (f.name, f.hash))
  let duplicates := args.foldl (fun acc nf =>
    if (hashes.map Prod.snd).contains nf.hash then
      acc ++ [(nf.name, nf.hash, (hashes.filter (fun pr => pr.2 == nf.hash)).map Prod.fst)]
    else acc) []
  if duplicates.isEmpty then none else some duplicates

/-- The `(primary, secondary)` tuple `sort_key` yields on a stem whose two
fields parse and are nonzero; total by defaulting missing values to 0. -/
def keyTuple (key : SortKey) (s : String) : Int × Int :=
  let n := (pyInt (takeStem s)).getD 0
  let y := (pyInt (dropStem s)).getD 0
  match key with
  | .year => (y, n)
  | .number => (n, y)

/-- The order the output of `sort_files` is claimed to satisfy: the key
tuples compared lexicographically, flipped when `reverse` is set. -/
def sortRel (key : SortKey) (rev : Bool) (a b : String) : Prop :=
  if rev then lexLe (keyTuple key b) (keyTuple key a)
  else lexLe (keyTuple key a) (keyTuple key b)

/-- The year filter of `latest_pattern` as a total predicate. -/
def yearMatches (y : Int) (s : String) : Bool := (pyInt (dropStem s)).getD 0 == y

/-! ### Helper lemmas -/

theorem bump_number (p : Pattern) : (bump_pattern_number p).number = p.number + 1 := rfl

theorem bump_name (p : Pattern) :
    (bump_pattern_number p).name = name_from_numbers (bump_pattern_number p) := rfl

theorem valid_numbers_ok (p : Pattern) (t : Int) (h1 : 1 ≤ p.number) (h2 : p.number ≤ 999)
    (h3 : 1997 ≤ p.year) (h4 : p.year ≤ t) : valid_numbers p t = .ok true := by
  unfold valid_numbers
  rw [if_neg (by omega), if_neg (by omega)]

theorem pyIntL_of_digits (cs : List Char) (h : pyIsdigitL cs = true) :
    pyIntL cs = some ((natOfDigits cs : Nat) : Int) := by
  cases cs with
  | nil => simp [pyIsdigitL] at h
  | cons c rest =>
    have hc : c.isDigit = true := by
      have h' := h
      simp only [pyIsdigitL, List.isEmpty_cons, Bool.not_false, Bool.true_and, List.all_cons,
        Bool.and_eq_true] at h'
      exact h'.1
    have hminus : ¬(c = '-') := by
      intro hh; rw [hh] at hc; exact absurd hc (by decide)
    have hplus : ¬(c = '+') := by
      intro hh; rw [hh] at hc; exact absurd hc (by decide)
    simp only [pyIntL, if_neg hminus, if_neg hplus, if_pos h]

theorem pyInt_of_isdigit (s : String) (h : pyIsdigit s = true) :
    pyInt s = some ((natOfDigits s.data : Nat) : Int) := pyIntL_of_digits s.data h

theorem sort_key_eq_keyTuple (s : String) (key : SortKey) (hc : conforms s = true)
    (hn : (pyInt (takeStem s)).getD 0 ≠ 0) (hy : (pyInt (dropStem s)).getD 0 ≠ 0) :
    sort_key s key = .ok (keyTuple key s) := by
  rw [conforms, Bool.and_eq_true] at hc
  have ht := pyInt_of_isdigit (takeStem s) hc.1
  have hd := pyInt_of_isdigit (dropStem s) hc.2
  rw [ht] at hn
  rw [hd] at hy
  simp only [Option.getD_some] at hn hy
  unfold sort_key keyTuple
  rw [ht, hd]
  simp only [Option.getD_some]
  rw [if_pos ⟨hy, hn⟩]
  cases key <;> rfl

theorem mapExcept_eq_map {ε α β : Type} (l : List α) (f : α → Except ε β) (g : α → β)
    (h : ∀ x ∈ l, f x = .ok (g x)) : mapExcept l f = .ok (l.map g) := by
  induction l with
  | nil => rfl
  | cons x xs ih =>
    have hx := h x (List.mem_cons_self x xs)
    have hxs := ih (fun a ha => h a (List.mem_cons_of_mem x ha))
    simp [mapExcept, hx, hxs]

theorem filterExcept_eq_filter {ε α : Type} (l : List α) (f : α → Except ε Bool) (g : α → Bool)
    (h : ∀ x ∈ l, f x = .ok (g x)) : filterExcept l f = .ok (l.filter g) := by
  induction l with
  | nil => rfl
  | cons x xs ih =>
    have hx := h x (List.mem_cons_self x xs)
    have hxs := ih (fun a ha => h a (List.mem_cons_of_mem x ha))
    simp only [filterExcept, hx, hxs, List.filter_cons]

theorem sort_files_ok (files : List String) (key : SortKey) (rev : Bool)
    (h : ∀ s ∈ files.filter conforms, sort_key s key = .ok (keyTuple key s)) :
    ∃ out, sort_files files key rev = .ok out ∧
      out.Perm (files.filter conforms) ∧ out.Pairwise (sortRel key rev) := by
  have hmap : mapExcept (files.filter conforms)
      (fun s => (sort_key s key).map (fun t => (s, t)))
      = .ok ((files.filter conforms).map (fun s => (s, keyTuple key s))) := by
    apply mapExcept_eq_map
    intro x hx
    rw [h x hx]
    rfl
  have hfst : ∀ l : List String, (l.map (fun s => (s, keyTuple key s))).map Prod.fst = l := by
    intro l
    induction l with
    | nil => rfl
    | cons x xs ih => simp [ih]
  cases rev with
  | false =>
    refine ⟨(List.insertionSort pairAsc
        ((files.filter conforms).map (fun s => (s, keyTuple key s)))).map Prod.fst, ?_, ?_, ?_⟩
    · unfold sort_files
      rw [hmap]
      rfl
    · have h1 := (List.perm_insertionSort pairAsc
        ((files.filter conforms).map (fun s => (s, keyTuple key s)))).map Prod.fst
      rw [hfst (files.filter conforms)] at h1
      exact h1
    · have hs := List.sorted_insertionSort pairAsc
        ((files.filter conforms).map (fun s => (s, keyTuple key s)))
      rw [List.pairwise_map]
      refine hs.imp_of_mem ?_
      intro a b ha hb hr
      have ha' : a.2 = keyTuple key a.1 := by
        have hmem : a ∈ (files.filter conforms).map (fun s => (s, keyTuple key s)) :=
          (List.mem_insertionSort pairAsc).mp ha
        obtain ⟨s, _, rfl⟩ := List.mem_map.mp hmem
        rfl
      have hb' : b.2 = keyTuple key b.1 := by
        have hmem : b ∈ (files.filter conforms).map (fun s => (s, keyTuple key s)) :=
          (List.mem_insertionSort pairAsc).mp hb
        obtain ⟨s, _, rfl⟩ := List.mem_map.mp hmem
        rfl
      unfold sortRel
      simp only [Bool.false_eq_true, if_false]
      rw [← ha', ← hb']
      exact hr
  | true =>
    refine ⟨(List.insertionSort pairDesc
        ((files.filter conforms).map (fun s => (s, keyTuple key s)))).map Prod.fst, ?_, ?_, ?_⟩
    · unfold sort_files
      rw [hmap]
      rfl
    · have h1 := (List.perm_insertionSort pairDesc
        ((files.filter conforms).map (fun s => (s, keyTuple key s)))).map Prod.fst
      rw [hfst (files.filter conforms)] at h1
      exact h1
    · have hs := List.sorted_insertionSort pairDesc
        ((files.filter conforms).map (fun s => (s, keyTuple key s)))
      rw [List.pairwise_map]
      refine hs.imp_of_mem ?_
      intro a b ha hb hr
      have ha' : a.2 = keyTuple key a.1 := by
        have hmem : a ∈ (files.filter conforms).map (fun s => (s, keyTuple key s)) :=
          (List.mem_insertionSort pairDesc).mp ha
        obtain ⟨s, _, rfl⟩ := List.mem_map.mp hmem
        rfl
      have hb' : b.2 = keyTuple key b.1 := by
        have hmem : b ∈ (files.filter conforms).map (fun s => (s, keyTuple key s)) :=
          (List.mem_insertionSort pairDesc).mp hb
        obtain ⟨s, _, rfl⟩ := List.mem_map.mp hmem
        rfl
      unfold sortRel
      simp only [if_true]
      rw [← ha', ← hb']
      exact hr

theorem latest_pattern_some_eq (dir : List String) (y : Int) (hy : y ≠ 0)
    (hall : ∀ s ∈ dir, ∃ v, pyInt (dropStem s) = some v) :
    latest_pattern dir (some y) =
      (match sort_files (dir.filter (yearMatches y)) .year true with
       | .error e => .error e
       | .ok [] => .error .indexError
       | .ok (f :: _) => .ok f) := by
  have hf : filterExcept dir (fun s =>
      match pyInt (dropStem s) with
      | some v => Except.ok (v == y)
      | none => Except.error (PyError.valueError invalidIntMsg))
      = .ok (dir.filter (yearMatches y)) := by
    apply filterExcept_eq_filter
    intro x hx
    obtain ⟨v, hv⟩ := hall x hx
    rw [hv]
    simp [yearMatches, hv]
  unfold latest_pattern
  dsimp only
  rw [if_pos hy, hf]

theorem latest_pattern_none_eq (dir : List String) :
    latest_pattern dir none =
      (match sort_files dir .year true with
       | .error e => .error e
       | .ok [] => .error .indexError
       | .ok (f :: _) => .ok f) := by
  unfold latest_pattern
  dsimp only

theorem from_file_indexError (d : FileData) (dir : List String) (fd : String) (today : Int)
    (h : latest_pattern dir (some d.year_modified) = .error .indexError)
    (h3 : 1997 ≤ d.year_modified) (h4 : d.year_modified ≤ today) :
    (from_file d dir fd today).map Pattern.number = .ok 1 := by
  unfold from_file
  rw [h]
  dsimp only
  rw [valid_numbers_ok _ today (show (1 : Int) ≤ 1 by norm_num)
    (show (1 : Int) ≤ 999 by norm_num) h3 h4]
  rfl

theorem from_file_ok_latest (d : FileData) (dir : List String) (fd : String) (today : Int)
    (latest : String) (s : Int)
    (h : latest_pattern dir (some d.year_modified) = .ok latest)
    (hs : pyInt (takeStem latest) = some s)
    (h1 : 1 ≤ s) (h2 : s ≤ 999) (h3 : 1997 ≤ d.year_modified) (h4 : d.year_modified ≤ today) :
    (from_file d dir fd today).map Pattern.number = .ok (if s = 1 then s else s + 1) := by
  unfold from_file
  rw [h]
  dsimp only
  rw [hs]
  dsimp only
  rw [valid_numbers_ok _ today h1 h2 h3 h4]
  dsimp only
  by_cases hseq : s = 1
  · rw [if_pos hseq, if_pos hseq]
    rfl
  · rw [if_neg hseq, if_neg hseq]
    rfl

/-! ### Claim theorems -/

/-- C2: `valid_numbers` returns `True` exactly when the sequence lies in
[1, 999] and the year in [1997, current year]; any value outside either
range makes validation fail with a range error instead of returning, and a
successful validation never accepts (or alters to) an out-of-range value. -/
theorem C2_validate_range (p : Pattern) (today : Int) :
    (1 ≤ p.number ∧ p.number ≤ 999 ∧ 1997 ≤ p.year ∧ p.year ≤ today →
      valid_numbers p today = .ok true)
    ∧ (p.number < 1 ∨ 999 < p.number ∨ p.year < 1997 ∨ today < p.year →
      ∃ msg, valid_numbers p today = .error (.valueError msg))
    ∧ (∀ b, valid_numbers p today = .ok b →
      b = true ∧ 1 ≤ p.number ∧ p.number ≤ 999 ∧ 1997 ≤ p.year ∧ p.year ≤ today) := by
  refine ⟨?_, ?_, ?_⟩
  · intro h
    exact valid_numbers_ok p today h.1 h.2.1 h.2.2.1 h.2.2.2
  · intro h
    unfold valid_numbers
    by_cases h1 : p.number < 1 ∨ 999 < p.number
    · exact ⟨numberRangeMsg, by rw [if_pos h1]⟩
    · refine ⟨yearRangeMsg, ?_⟩
      rw [if_neg h1, if_pos (by omega)]
  · intro b hb
    unfold valid_numbers at hb
    by_cases h1 : p.number < 1 ∨ 999 < p.number
    · rw [if_pos h1] at hb
      exact absurd hb (by simp)
    · by_cases h2 : today < p.year ∨ p.year < 1997
      · rw [if_neg h1, if_pos h2] at hb
        exact absurd hb (by simp)
      · rw [if_neg h1, if_neg h2] at hb
        simp only [Except.ok.injEq] at hb
        exact ⟨hb.symm, by omega, by omega, by omega, by omega⟩

/-- C2 witness: sequence 1, year 2020 validates against today = 2024. -/
theorem C2_witness :
    valid_numbers
      { original_name := "TestPattern1", number := 1, year := 2020,
        size_kb := 150, hash := "hash1", flash_drive := "HAPPY9" } 2024 = .ok true :=
  (C2_validate_range _ 2024).1 (by refine ⟨?_, ?_, ?_, ?_⟩ <;> norm_num)

/-- C3 counterexample: directly after construction (the dataclass call
with the `name` default) a `Pattern` with sequence 24 and year 2020
carries `name = "?"`, which is not `zfill(24, 3) + "2020" = "0242020"`:
the canonical name can be out of sync with `sequence`/`year`. -/
theorem C3_counterexample :
    ({ original_name := "TestPattern3", number := 24, year := 2020, size_kb := 150,
       hash := "hash3", flash_drive := "HAPPY9" } : Pattern).name ≠
      zfill (toString (24 : Int)) 3 ++ toString (2020 : Int) := by decide

/-- C3 (amended): `name_from_numbers` always yields the canonical
`zfill(sequence, 3) + str(year)` (e.g. `"0242020"` for 24/2020), and the
name is in sync with the fields after every `bump_pattern_number`; it can
be out of sync right after construction or a bare field assignment. -/
theorem C3_canonical_name (p : Pattern) :
    name_from_numbers p = zfill (toString p.number) 3 ++ toString p.year
    ∧ (bump_pattern_number p).name =
        zfill (toString (bump_pattern_number p).number) 3 ++
          toString (bump_pattern_number p).year
    ∧ name_from_numbers { p with number := 24, year := 2020 } = "0242020" :=
  ⟨rfl, rfl, rfl⟩

/-- C4: `bump_pattern_number` adds exactly 1 to the sequence and recomputes
the name; repeated calls keep advancing; bumping 999 yields 1000 (no wrap)
and the next validation fails with a range error. -/
theorem C4_bump (p : Pattern) (today : Int) :
    (bump_pattern_number p).number = p.number + 1
    ∧ (bump_pattern_number p).name = name_from_numbers (bump_pattern_number p)
    ∧ (bump_pattern_number (bump_pattern_number p)).number = p.number + 2
    ∧ (p.number = 999 →
        (bump_pattern_number p).number = 1000 ∧
        ∃ msg, valid_numbers (bump_pattern_number p) today = .error (.valueError msg)) := by
  refine ⟨rfl, rfl, by rw [bump_number, bump_number]; omega, ?_⟩
  intro h999
  have hn : (bump_pattern_number p).number = 1000 := by rw [bump_number, h999]; norm_num
  refine ⟨hn, numberRangeMsg, ?_⟩
  unfold valid_numbers
  rw [if_pos (by rw [hn]; norm_num)]

/-- C4 witness: bumping a pattern at sequence 999 gives 1000 and a failing
validation. -/
theorem C4_witness :
    (bump_pattern_number
      { original_name := "TestPattern5", number := 999, year := 2024,
        size_kb := 150, hash := "hash5", flash_drive := "HAPPY9" }).number = 1000 ∧
    ∃ msg, valid_numbers
      (bump_pattern_number
        { original_name := "TestPattern5", number := 999, year := 2024,
          size_kb := 150, hash := "hash5", flash_drive := "HAPPY9" }) 2024
      = .error (.valueError msg) :=
  (C4_bump _ 2024).2.2.2 rfl

/-- C5: on the spec's example archive `0012020.dst, 0022020.dst,
TestName1.dst`, `list_present_years` does not return `{2020}` — the
`int(file.stem[3:])` call raises `ValueError` on the non-numeric stem, and
the year-scoped `latest_pattern` fails the same way; only the unscoped
sort actually skips the foreign name. -/
theorem C5_nonnumeric_name_raises :
    list_present_years ["0012020", "0022020", "TestName1"]
        = .error (.valueError invalidIntMsg)
    ∧ latest_pattern ["0012020", "0022020", "TestName1"] (some 2020)
        = .error (.valueError invalidIntMsg)
    ∧ sort_files ["0012020", "0022020", "TestName1"] SortKey.year true
        = .ok ["0022020", "0012020"] := by decide

/-- C9: `to_csv_log` returns `False` and leaves the log as it was when the
file is not writable; on a missing log file it creates it with the header
row and exactly one data row; on an existing log file it appends exactly
one data row and no header. -/
theorem C9_transaction_log (p : Pattern) (st : Option (List (List String)))
    (rows : List (List String)) :
    to_csv_log p st false = (st, false)
    ∧ to_csv_log p none true = (some [csvHeaders, csvRow p], true)
    ∧ to_csv_log p (some rows) true = (some (rows ++ [csvRow p]), true) :=
  ⟨rfl, rfl, rfl⟩

/-- C10: the stems `"0002020"` (zero sequence) and `"0010000"` (zero year)
pass the numeric filter of `sort_files`, yet `sort_key` treats the zero
field as missing and raises `ValueError`, so `sort_files` fails on lists
its own filter accepts. -/
theorem C10_zero_fields_break_sort :
    conforms "0002020" = true
    ∧ sort_key "0002020" SortKey.year = .error (.valueError keyMsg)
    ∧ sort_files ["0002020"] SortKey.year true = .error (.valueError keyMsg)
    ∧ conforms "0010000" = true
    ∧ sort_key "0010000" SortKey.number = .error (.valueError keyMsg) := by decide

/-- C1 counterexample: with the archive `["0012024"]` (latest sequence of
2024 is 1) a candidate modified in 2024 gets sequence 1 from
`Pattern.from_file`, not the prior latest plus one, which would be 2. -/
theorem C1_counterexample :
    (from_file { file_name := "cand", size_kb := 150, hash := "h", year_modified := 2024 }
      ["0012024"] "HAPPY9" 2024).map Pattern.number = .ok 1
    ∧ (Except.ok (1 : Int) ≠ (Except.ok (1 + 1) : Except PyError Int)) := by decide

/-- C1 (amended): in the main flow the sequence resets to 1 when the
modification year is absent from the archive and otherwise continues at
the year's prior latest sequence plus 1; `Pattern.from_file` behaves the
same, except that when the year's prior latest sequence is exactly 1 the
resulting sequence stays 1 instead of becoming 2. -/
theorem C1_sequence_assignment (p : Pattern) (d : FileData) (dir : List String)
    (fd : String) (today : Int) (ys : Finset Int) (latest : String) (s : Int) :
    (list_present_years dir = .ok ys → p.year ∉ ys →
      (main_assign_number p dir).map Pattern.number = .ok 1)
    ∧ (list_present_years dir = .ok ys → p.year ∈ ys →
      latest_pattern dir (some p.year) = .ok latest →
      pyInt (takeStem latest) = some s →
      (main_assign_number p dir).map Pattern.number = .ok (s + 1))
    ∧ (latest_pattern dir (some d.year_modified) = .error .indexError →
      1997 ≤ d.year_modified → d.year_modified ≤ today →
      (from_file d dir fd today).map Pattern.number = .ok 1)
    ∧ (latest_pattern dir (some d.year_modified) = .ok latest →
      pyInt (takeStem latest) = some s → s ≠ 1 → 1 ≤ s → s ≤ 999 →
      1997 ≤ d.year_modified → d.year_modified ≤ today →
      (from_file d dir fd today).map Pattern.number = .ok (s + 1))
    ∧ (latest_pattern dir (some d.year_modified) = .ok latest →
      pyInt (takeStem latest) = some 1 →
      1997 ≤ d.year_modified → d.year_modified ≤ today →
      (from_file d dir fd today).map Pattern.number = .ok 1) := by
  refine ⟨?_, ?_, ?_, ?_, ?_⟩
  · intro hys hnot
    unfold main_assign_number
    rw [hys]
    dsimp only
    rw [if_pos hnot]
    rfl
  · intro hys hmem hlat hpy
    unfold main_assign_number
    rw [hys]
    dsimp only
    rw [if_neg (fun hcon => hcon hmem), hlat]
    dsimp only
    rw [hpy]
    rfl
  · intro hlat h3 h4
    exact from_file_indexError d dir fd today hlat h3 h4
  · intro hlat hpy hs1 h1 h2 h3 h4
    have := from_file_ok_latest d dir fd today latest s hlat hpy h1 h2 h3 h4
    rw [if_neg hs1] at this
    exact this
  · intro hlat hpy h3 h4
    have := from_file_ok_latest d dir fd today latest 1 hlat hpy (by norm_num)
      (by norm_num) h3 h4
    rw [if_pos rfl] at this
    exact this

/-- C1 witness: the main flow resets to 1 for a 2024 candidate over a
2020-only archive, and `from_file` continues 5 to 6 over `["0052020"]`. -/
theorem C1_witness :
    (main_assign_number
      { original_name := "cand", number := 1, year := 2024, size_kb := 150,
        hash := "h", flash_drive := "HAPPY9" }
      ["0012020", "0022020"]).map Pattern.number = .ok 1
    ∧ (from_file { file_name := "cand", size_kb := 150, hash := "h", year_modified := 2020 }
        ["0052020"] "HAPPY9" 2024).map Pattern.number = .ok (5 + 1) := by
  constructor
  · exact (C1_sequence_assignment
      { original_name := "cand", number := 1, year := 2024, size_kb := 150,
        hash := "h", flash_drive := "HAPPY9" }
      { file_name := "cand", size_kb := 150, hash := "h", year_modified := 2020 }
      ["0012020", "0022020"] "HAPPY9" 2024 {2020} "0052020" 5).1 (by decide) (by decide)
  · exact (C1_sequence_assignment
      { original_name := "cand", number := 1, year := 2024, size_kb := 150,
        hash := "h", flash_drive := "HAPPY9" }
      { file_name := "cand", size_kb := 150, hash := "h", year_modified := 2020 }
      ["0052020"] "HAPPY9" 2024 {2020} "0052020" 5).2.2.2.1
      (by decide) (by decide) (by decide) (by decide) (by decide) (by decide) (by decide)

/-- C6 counterexample: `"0010000"` passes the numeric filter of
`sort_files`, yet sorting the list containing it raises `ValueError`
instead of returning the filtered entries in sorted order. -/
theorem C6_counterexample :
    conforms "0010000" = true
    ∧ sort_files ["0012020", "0010000"] SortKey.number false
        = .error (.valueError keyMsg) := by decide

/-- C6 (amended): whenever every conforming entry parses to a nonzero
3-digit prefix value and a nonzero remainder (so `sort_key` cannot raise),
`sort_files` drops exactly the non-conforming entries and returns the rest
ordered by the `(primary, secondary)` tuple chosen by `key`, with the
descending flag applied to the whole tuple; entries with a zero field make
it raise instead (see the counterexample). -/
theorem C6_sort_entries (files : List String) (key : SortKey) (rev : Bool)
    (h : ∀ s ∈ files.filter conforms,
      (pyInt (takeStem s)).getD 0 ≠ 0 ∧ (pyInt (dropStem s)).getD 0 ≠ 0) :
    ∃ out, sort_files files key rev = .ok out
      ∧ out.Perm (files.filter conforms)
      ∧ out.Pairwise (sortRel key rev) := by
  apply sort_files_ok
  intro s hs
  exact sort_key_eq_keyTuple s key (List.of_mem_filter hs) (h s hs).1 (h s hs).2

/-- C6 witness: the spec's example list sorts by year descending. -/
theorem C6_witness :
    ∃ out, sort_files ["0012020", "0022020", "TestName1"] SortKey.year true = .ok out
      ∧ out.Perm (["0012020", "0022020", "TestName1"].filter conforms)
      ∧ out.Pairwise (sortRel SortKey.year true) :=
  C6_sort_entries ["0012020", "0022020", "TestName1"] SortKey.year true (by decide)

/-- C7 counterexample: with the directory `["TestName1"]` and the year
filter 2020 the (year-filtered) list of conforming entries is empty, yet
`latest_pattern` fails with `ValueError` (raised while filtering by year),
not with the NotFound `IndexError`. -/
theorem C7_counterexample :
    latest_pattern ["TestName1"] (some 2020) = .error (.valueError invalidIntMsg)
    ∧ ((["TestName1"].filter (yearMatches 2020)).filter conforms) = []
    ∧ PyError.valueError invalidIntMsg ≠ PyError.indexError := by decide

/-- C7 (amended): when every stem's remainder parses as an integer (so the
year filter cannot raise) and conforming entries carry nonzero fields (so
the sort cannot raise), `latest_pattern` fails with the NotFound
`IndexError` exactly when the (optionally year-filtered) list of
conforming entries is empty, and `Pattern.from_file` recovers from that
failure by starting the sequence at 1 instead of aborting. -/
theorem C7_not_found (dir : List String) (y : Int) (d : FileData) (fd : String) (today : Int)
    (hy : y ≠ 0)
    (hall : ∀ s ∈ dir, ∃ v, pyInt (dropStem s) = some v)
    (hnz : ∀ s ∈ dir, conforms s = true →
      (pyInt (takeStem s)).getD 0 ≠ 0 ∧ (pyInt (dropStem s)).getD 0 ≠ 0) :
    (latest_pattern dir (some y) = .error .indexError ↔
      ((dir.filter (yearMatches y)).filter conforms) = [])
    ∧ (latest_pattern dir none = .error .indexError ↔ dir.filter conforms = [])
    ∧ (latest_pattern dir (some d.year_modified) = .error .indexError →
      1997 ≤ d.year_modified → d.year_modified ≤ today →
      (from_file d dir fd today).map Pattern.number = .ok 1) := by
  have keys : ∀ l : List String, (∀ x ∈ l, x ∈ dir) →
      ∀ s ∈ l.filter conforms, sort_key s .year = .ok (keyTuple .year s) := by
    intro l hsub s hs
    have hconf := List.of_mem_filter hs
    have hmem : s ∈ dir := hsub s (List.mem_of_mem_filter hs)
    exact sort_key_eq_keyTuple s .year hconf (hnz s hmem hconf).1 (hnz s hmem hconf).2
  refine ⟨?_, ?_, fun hlat h3 h4 => from_file_indexError d dir fd today hlat h3 h4⟩
  · obtain ⟨out, hok, hperm, _⟩ := sort_files_ok (dir.filter (yearMatches y)) .year true
      (keys _ (fun x hx => List.mem_of_mem_filter hx))
    rw [latest_pattern_some_eq dir y hy hall, hok]
    cases out with
    | nil =>
      have hempty : (dir.filter (yearMatches y)).filter conforms = [] :=
        List.perm_nil.mp hperm.symm
      simp [hempty]
    | cons f rest =>
      constructor
      · intro hcon
        exact absurd hcon (by simp)
      · intro hkept
        rw [hkept] at hperm
        exact absurd (List.perm_nil.mp hperm) (by simp)
  · obtain ⟨out, hok, hperm, _⟩ := sort_files_ok dir .year true (keys dir (fun x hx => hx))
    rw [latest_pattern_none_eq dir, hok]
    cases out with
    | nil =>
      have hempty : dir.filter conforms = [] := List.perm_nil.mp hperm.symm
      simp [hempty]
    | cons f rest =>
      constructor
      · intro hcon
        exact absurd hcon (by simp)
      · intro hkept
        rw [hkept] at hperm
        exact absurd (List.perm_nil.mp hperm) (by simp)

/-- C7 witness: over an empty archive the year-scoped query is NotFound
and `from_file` starts at sequence 1. -/
theorem C7_witness :
    (latest_pattern [] (some 2020) = .error .indexError ↔
      ((([] : List String).filter (yearMatches 2020)).filter conforms) = [])
    ∧ (from_file { file_name := "cand", size_kb := 150, hash := "h", year_modified := 2024 }
        [] "HAPPY9" 2024).map Pattern.number = .ok 1 := by
  constructor
  · exact (C7_not_found [] 2020
      { file_name := "cand", size_kb := 150, hash := "h", year_modified := 2024 }
      "HAPPY9" 2024 (by decide) (fun s hs => absurd hs (List.not_mem_nil s))
      (fun s hs => absurd hs (List.not_mem_nil s))).1
  · exact (C7_not_found [] 2020
      { file_name := "cand", size_kb := 150, hash := "h", year_modified := 2024 }
      "HAPPY9" 2024 (by decide) (fun s hs => absurd hs (List.not_mem_nil s))
      (fun s hs => absurd hs (List.not_mem_nil s))).2.2 (by decide) (by decide) (by decide)

/-- C8: `is_present` returns the mapping from the candidate's name to its
hash and the list of every archived file sharing that content fingerprint
whenever at least one exists, and `False` (here `none`) when none does;
being a pure function of the listed names and hashes it never mutates the
archive. -/
theorem C8_duplicate_gate (c : HFile) (archive : List HFile) :
    ((archive.filter (fun t => t.hash == c.hash)) ≠ [] →
      is_present [c] archive =
        some [(c.name, c.hash, (archive.filter (fun t => t.hash == c.hash)).map HFile.name)])
    ∧ ((archive.filter (fun t => t.hash == c.hash)) = [] →
      is_present [c] archive = none) := by
  have hsnd : ∀ l : List HFile,
      (l.map (fun f => (f.name, f.hash))).map Prod.snd = l.map HFile.hash := by
    intro l
    induction l with
    | nil => rfl
    | cons x xs ih => simp [ih]
  have hnames : ∀ l : List HFile,
      ((l.map (fun f => (f.name, f.hash))).filter (fun pr => pr.2 == c.hash)).map Prod.fst
        = (l.filter (fun t => t.hash == c.hash)).map HFile.name := by
    intro l
    induction l with
    | nil => rfl
    | cons x xs ih =>
      simp only [List.map_cons, List.filter_cons]
      cases hx : (x.hash == c.hash) with
      | false => simp [hx, ih]
      | true => simp [hx, ih]
  have hcont : ∀ l : List HFile,
      (l.map HFile.hash).contains c.hash
        = !(l.filter (fun t => t.hash == c.hash)).isEmpty := by
    intro l
    induction l with
    | nil => rfl
    | cons x xs ih =>
      by_cases hx : x.hash = c.hash
      · simp [List.contains_cons, List.filter_cons, hx]
      · have hx1 : (c.hash == x.hash) = false := by
          simp only [beq_eq_false_iff_ne, ne_eq]
          exact fun hh => hx hh.symm
        have hx2 : (x.hash == c.hash) = false := by
          simp only [beq_eq_false_iff_ne, ne_eq]
          exact hx
        simp only [List.map_cons, List.contains_cons, hx1, Bool.false_or, List.filter_cons]
        rw [if_neg (by rw [hx2]; exact Bool.false_ne_true)]
        exact ih
  have key : is_present [c] archive =
      (if (archive.filter (fun t => t.hash == c.hash)).isEmpty then none
       else some [(c.name, c.hash,
         (archive.filter (fun t => t.hash == c.hash)).map HFile.name)]) := by
    unfold is_present
    simp only [List.foldl_cons, List.foldl_nil]
    rw [hsnd archive, hcont archive, hnames archive]
    cases hk : (archive.filter (fun t => t.hash == c.hash)).isEmpty <;> simp [hk]
  constructor
  · intro hne
    rw [key, if_neg (fun hcon => hne (List.isEmpty_iff.mp hcon))]
  · intro hemp
    rw [key, if_pos (List.isEmpty_iff.mpr hemp)]

/-- C8 witness: a candidate sharing hash `H` with an archived file is
reported with that file's name; a candidate with a fresh hash is not. -/
theorem C8_witness :
    ((([⟨"0012020", "H"⟩] : List HFile).filter (fun t => t.hash == "H")) ≠ [])
    ∧ is_present [⟨"cand", "H"⟩] [⟨"0012020", "H"⟩] = some [("cand", "H", ["0012020"])]
    ∧ is_present [⟨"cand2", "H2"⟩] [⟨"0012020", "H"⟩] = none := by
  refine ⟨by decide, ?_, ?_⟩
  · exact (C8_duplicate_gate ⟨"cand", "H"⟩ [⟨"0012020", "H"⟩]).1 (by decide)
  · exact (C8_duplicate_gate ⟨"cand2", "H2"⟩ [⟨"0012020", "H"⟩]).2 (by decide)

end HappyManager
